import Mathlib

/-!
Verification of the SpaceX launch-records dashboard (`spacex-dash-app.py`).

The dashboard's original logic lives in two callbacks, `update_pie_chart`
and `update_scatter_chart`, plus the layout constants of the payload
range slider.  We embed the dataset as a list of records, the two
callbacks as pure functions from the dataset and the user selections to
figure specifications, and the slider configuration as a record of its
constructor arguments.  Numeric CSV cells are modelled as rationals; a
missing `Payload Mass (kg)` cell (pandas `NaN`) is modelled as `none`,
matching the fact that every pandas comparison with `NaN` is false.
-/

/-- One row of `spacex_df`: the columns the callbacks read.
`launchSite` is `Launch Site`, `payloadMass` is `Payload Mass (kg)`
(`none` for a missing cell), `outcomeClass` is `class`. -/
structure LaunchRecord where
  launchSite : String
  payloadMass : Option ℚ
  outcomeClass : ℕ
deriving DecidableEq

/-- Which optional booster columns the loaded CSV schema has
(`'Booster Version Category' in spacex_df.columns`, likewise
`'Booster Version'`). -/
structure Schema where
  hasBoosterVersionCategory : Bool
  hasBoosterVersion : Bool
deriving DecidableEq

/-- Sum of the `class` column over a list of rows (pandas `['class'].sum()`). -/
def classSum (l : List LaunchRecord) : ℕ :=
  (l.map (fun r => r.outcomeClass)).sum

/-- Lexicographic comparison of character lists by code point, the order
in which Python compares the site-name strings. -/
def charListLe : List Char → List Char → Bool
  | [], _ => true
  | _ :: _, [] => false
  | a :: as, b :: bs =>
    if a = b then charListLe as bs else decide (a.toNat < b.toNat)

/-- String comparison by code points. -/
def strLe (a b : String) : Bool := charListLe a.data b.data

/-- Insert a string into a `strLe`-sorted list. -/
def insertSorted (s : String) : List String → List String
  | [] => [s]
  | t :: ts => if strLe s t then s :: t :: ts else t :: insertSorted s ts

/-- Insertion sort of strings in ascending `strLe` order. -/
def sortStrings : List String → List String
  | [] => []
  | s :: ss => insertSorted s (sortStrings ss)

/-- The distinct `Launch Site` values in groupby order: pandas
`groupby('Launch Site')` sorts the group keys ascending. -/
def siteKeys (ds : List LaunchRecord) : List String :=
  sortStrings ((ds.map (fun r => r.launchSite)).dedup)

/-- The `ALL` branch of `update_pie_chart`:
`spacex_df.groupby('Launch Site')['class'].sum().reset_index()` —
one (site, summed class) row per distinct site. -/
def pieAll (ds : List LaunchRecord) : List (String × ℕ) :=
  (siteKeys ds).map
    (fun s => (s, classSum (ds.filter (fun r => r.launchSite == s))))

/-- The specific-site branch of `update_pie_chart`: filter to the site,
`value_counts` of `class` renamed to Success/Failure and reindexed to
`['Success', 'Failure']` with `fill_value=0`, so the result is always
exactly these two rows in this order. -/
def pieSite (ds : List LaunchRecord) (site : String) : List (String × ℕ) :=
  let site_df := ds.filter (fun r => r.launchSite == site)
  [("Success", (site_df.filter (fun r => r.outcomeClass == 1)).length),
   ("Failure", (site_df.filter (fun r => r.outcomeClass == 0)).length)]

/-- The pie figure specification handed to `px.pie`: the (names, values)
rows of `pie_df` and the title. -/
structure PieFigure where
  pairs : List (String × ℕ)
  title : String
deriving DecidableEq

/-- The callback `update_pie_chart(selected_site)`. -/
def update_pie_chart (ds : List LaunchRecord) (selected_site : String) :
    PieFigure :=
  if selected_site == "ALL" then
    { pairs := pieAll ds
      title := "Total Successful Launches by Site" }
  else
    { pairs := pieSite ds selected_site
      title := "Success vs. Failure for site: " ++ selected_site }

/-- The present `Payload Mass (kg)` values of the dataset, in order
(pandas aggregations skip `NaN` cells). -/
def payloads (ds : List LaunchRecord) : List ℚ :=
  ds.filterMap (fun r => r.payloadMass)

/-- `spacex_df['Payload Mass (kg)'].min()` over the present cells.  For an
empty column pandas yields `NaN`; the model returns `0` there, a case no
claim exercises. -/
def min_payload (ds : List LaunchRecord) : ℚ :=
  match payloads ds with
  | [] => 0
  | p :: ps => ps.foldl min p

/-- `spacex_df['Payload Mass (kg)'].max()` over the present cells, with
the same convention for the empty column as `min_payload`. -/
def max_payload (ds : List LaunchRecord) : ℚ :=
  match payloads ds with
  | [] => 0
  | p :: ps => ps.foldl max p

/-- The payload mask of `update_scatter_chart`:
`(spacex_df['Payload Mass (kg)'] >= low) & (spacex_df['Payload Mass (kg)'] <= high)`.
A missing cell compares false on both sides in pandas, so the row is
excluded. -/
def inRange (low high : ℚ) (r : LaunchRecord) : Bool :=
  match r.payloadMass with
  | some p => decide (low ≤ p) && decide (p ≤ high)
  | none => false

/-- The booster colour column chosen from the schema (lines 98-103 of the
source): prefer `Booster Version Category`, else `Booster Version`,
else `None`. -/
def colorColumn (schema : Schema) : Option String :=
  if schema.hasBoosterVersionCategory then some "Booster Version Category"
  else if schema.hasBoosterVersion then some "Booster Version"
  else none

/-- Python truthiness of the `color_col` value tested by `if color_col:`:
`None` and the empty string are falsy, any other string is truthy. -/
def truthy : Option String → Bool
  | none => false
  | some s => !(s == "")

/-- The scatter figure specification handed to `px.scatter`: the rows of
`scatter_df`, the `color=` column (absent when `color_col` was falsy),
and the title. -/
structure ScatterFigure where
  points : List LaunchRecord
  colorField : Option String
  title : String
deriving DecidableEq

/-- The callback `update_scatter_chart(selected_site, payload_range)`.
`payload_range` is `some (low, high)` for a two-element list/tuple and
`none` for any non-list, non-tuple value, for which the code substitutes
`(min_payload, max_payload)`. -/
def update_scatter_chart (ds : List LaunchRecord) (schema : Schema)
    (selected_site : String) (payload_range : Option (ℚ × ℚ)) :
    ScatterFigure :=
  let lh := payload_range.getD (min_payload ds, max_payload ds)
  let filtered_df := ds.filter (inRange lh.1 lh.2)
  let color_col := colorColumn schema
  let scatter_df :=
    if selected_site == "ALL" then filtered_df
    else filtered_df.filter (fun r => r.launchSite == selected_site)
  { points := scatter_df
    colorField := if truthy color_col then color_col else none
    title :=
      if selected_site == "ALL" then "Payload vs Outcome for all sites"
      else "Payload vs Outcome for " ++ selected_site }

/-- The constructor arguments of the layout's `dcc.RangeSlider`
(`id='payload-slider'`): fixed `min=0`, `max=10000`, `step=1000`,
default `value=[min_payload, max_payload]`, marks at five round numbers. -/
structure RangeSliderSpec where
  lowBound : ℚ
  highBound : ℚ
  step : ℚ
  value : ℚ × ℚ
  marks : List ℚ
deriving DecidableEq

/-- The `payload-slider` control as built in the layout. -/
def payloadSlider (ds : List LaunchRecord) : RangeSliderSpec :=
  { lowBound := 0
    highBound := 10000
    step := 1000
    value := (min_payload ds, max_payload ds)
    marks := [0, 2500, 5000, 7500, 10000] }

/-- The concrete three-row dataset of the spec's §8 scenario:
`[(CCAFS, 500, 1), (CCAFS, 4000, 0), (VAFB, 2000, 1)]`. -/
def specDs : List LaunchRecord :=
  [⟨"CCAFS", some 500, 1⟩, ⟨"CCAFS", some 4000, 0⟩, ⟨"VAFB", some 2000, 1⟩]

/-! ### Helper lemmas -/

theorem insertSorted_perm (s : String) (l : List String) :
    (insertSorted s l).Perm (s :: l) := by
  induction l with
  | nil => exact List.Perm.refl [s]
  | cons t ts ih =>
    by_cases h : strLe s t
    · simp [insertSorted, h]
    · simp only [insertSorted, if_neg h]
      exact (ih.cons t).trans (List.Perm.swap s t ts)

theorem sortStrings_perm (l : List String) : (sortStrings l).Perm l := by
  induction l with
  | nil => exact List.Perm.refl []
  | cons s ss ih =>
    exact (insertSorted_perm s (sortStrings ss)).trans (ih.cons s)

theorem siteKeys_nodup (ds : List LaunchRecord) : (siteKeys ds).Nodup :=
  ((sortStrings_perm _).nodup_iff).mpr (List.nodup_dedup _)

theorem mem_siteKeys (ds : List LaunchRecord) (s : String) :
    s ∈ siteKeys ds ↔ ∃ r ∈ ds, r.launchSite = s := by
  unfold siteKeys
  rw [(sortStrings_perm _).mem_iff, List.mem_dedup, List.mem_map]

theorem classSum_nil : classSum [] = 0 := rfl

theorem classSum_cons (r : LaunchRecord) (l : List LaunchRecord) :
    classSum (r :: l) = r.outcomeClass + classSum l := by
  simp [classSum]

theorem sum_map_ite_single (keys : List String) (k : String) (c : ℕ)
    (hnd : keys.Nodup) (hk : k ∈ keys) :
    (keys.map (fun s => if s = k then c else 0)).sum = c := by
  induction keys with
  | nil => cases hk
  | cons a as ih =>
    rcases List.nodup_cons.mp hnd with ⟨hna, hnd'⟩
    by_cases hak : a = k
    · have hkas : k ∉ as := hak ▸ hna
      have hz : (as.map (fun s => if s = k then c else 0)).sum = 0 := by
        apply List.sum_eq_zero
        intro x hx
        rcases List.mem_map.mp hx with ⟨s, hs, rfl⟩
        exact if_neg (fun (he : s = k) => hkas (he ▸ hs))
      simp [hak, hz]
    · have hkmem : k ∈ as := by
        rcases List.mem_cons.mp hk with h | h
        · exact absurd h.symm hak
        · exact h
      simp [if_neg hak, ih hnd' hkmem]

theorem classSum_partition (keys : List String) (ds : List LaunchRecord)
    (hnd : keys.Nodup) (hcov : ∀ r ∈ ds, r.launchSite ∈ keys) :
    (keys.map (fun s => classSum (ds.filter (fun r => r.launchSite == s)))).sum
      = classSum ds := by
  induction ds with
  | nil => simp [classSum]
  | cons r t ih =>
    have hr : r.launchSite ∈ keys := hcov r (List.mem_cons_self r t)
    have hcov' : ∀ x ∈ t, x.launchSite ∈ keys :=
      fun x hx => hcov x (List.mem_cons_of_mem r hx)
    have hsplit : ∀ s : String,
        classSum ((r :: t).filter (fun x => x.launchSite == s))
          = (if s = r.launchSite then r.outcomeClass else 0)
            + classSum (t.filter (fun x => x.launchSite == s)) := by
      intro s
      by_cases h : r.launchSite = s
      · simp [List.filter_cons, h, classSum_cons]
      · have h' : s ≠ r.launchSite := fun he => h he.symm
        simp [List.filter_cons, h, h']
    calc (keys.map
            (fun s => classSum ((r :: t).filter (fun x => x.launchSite == s)))).sum
        = (keys.map
            (fun s => (if s = r.launchSite then r.outcomeClass else 0)
              + classSum (t.filter (fun x => x.launchSite == s)))).sum := by
          rw [List.map_congr_left (fun s _ => hsplit s)]
      _ = (keys.map (fun s => if s = r.launchSite then r.outcomeClass else 0)).sum
            + (keys.map
                (fun s => classSum (t.filter (fun x => x.launchSite == s)))).sum := by
          rw [List.sum_map_add]
      _ = r.outcomeClass + classSum t := by
          rw [sum_map_ite_single keys r.launchSite r.outcomeClass hnd hr, ih hcov']
      _ = classSum (r :: t) := (classSum_cons r t).symm

theorem length_filter_class_partition (l : List LaunchRecord)
    (hwf : ∀ r ∈ l, r.outcomeClass = 0 ∨ r.outcomeClass = 1) :
    (l.filter (fun r => r.outcomeClass == 1)).length
      + (l.filter (fun r => r.outcomeClass == 0)).length = l.length := by
  induction l with
  | nil => rfl
  | cons r t ih =>
    have hr := hwf r (List.mem_cons_self r t)
    have ht : ∀ x ∈ t, x.outcomeClass = 0 ∨ x.outcomeClass = 1 :=
      fun x hx => hwf x (List.mem_cons_of_mem r hx)
    rcases hr with h | h <;>
      simp [List.filter_cons, h, ← ih ht] <;> omega

theorem inRange_iff (low high : ℚ) (r : LaunchRecord) :
    inRange low high r = true
      ↔ ∃ p, r.payloadMass = some p ∧ low ≤ p ∧ p ≤ high := by
  cases hp : r.payloadMass with
  | none => simp [inRange, hp]
  | some p => simp [inRange, hp, and_assoc]

theorem scatter_points_eq (ds : List LaunchRecord) (schema : Schema)
    (site : String) (low high : ℚ) :
    (update_scatter_chart ds schema site (some (low, high))).points
      = if site == "ALL" then ds.filter (inRange low high)
        else (ds.filter (inRange low high)).filter
          (fun r => r.launchSite == site) := rfl

theorem scatter_points_sublist_helper (ds : List LaunchRecord) (schema : Schema)
    (site : String) (low high : ℚ) :
    ((update_scatter_chart ds schema site (some (low, high))).points).Sublist ds := by
  rw [scatter_points_eq]
  by_cases hs : (site == "ALL") = true
  · rw [if_pos hs]; exact List.filter_sublist ds
  · rw [if_neg hs]; exact (List.filter_sublist _).trans (List.filter_sublist ds)

/-! ### Claim theorems -/

/-- Claim C8: the scatter figure's colour-grouping attribute follows the
schema precedence: `Booster Version Category` if that column exists, else
`Booster Version` if that column exists, else no colour field at all, and
the figure is built without error in every case. -/
theorem scatter_color_precedence (ds : List LaunchRecord) (schema : Schema)
    (site : String) (payload_range : Option (ℚ × ℚ)) :
    (update_scatter_chart ds schema site payload_range).colorField
      = if schema.hasBoosterVersionCategory then some "Booster Version Category"
        else if schema.hasBoosterVersion then some "Booster Version"
        else none := by
  obtain ⟨bvc, bv⟩ := schema
  cases bvc <;> cases bv <;> rfl

/-- Claim C10: when `payload_range` is not a list or tuple (modelled as
`none`), `update_scatter_chart` does not fail: it substitutes the dataset
bounds `(min_payload, max_payload)` and computes the same figure as for
the full range. -/
theorem scatter_malformed_range_default (ds : List LaunchRecord)
    (schema : Schema) (site : String) :
    update_scatter_chart ds schema site none
      = update_scatter_chart ds schema site
          (some (min_payload ds, max_payload ds)) := rfl

/-- Claim C9: the scatter point sequence is exactly the stable filter of
the dataset by the payload-range and site predicates — the subsequence of
passing records in original relative order, with no re-sorting. -/
theorem scatter_points_order (ds : List LaunchRecord) (schema : Schema)
    (site : String) (low high : ℚ) :
    (update_scatter_chart ds schema site (some (low, high))).points
      = ds.filter (fun r => inRange low high r
          && (site == "ALL" || r.launchSite == site)) ∧
    ((update_scatter_chart ds schema site (some (low, high))).points).Sublist ds := by
  refine ⟨?_, scatter_points_sublist_helper ds schema site low high⟩
  rw [scatter_points_eq]
  by_cases hs : site = "ALL"
  · rw [if_pos (by simp [hs])]
    refine List.filter_congr ?_
    intro x _
    simp [hs]
  · rw [if_neg (by simp [hs]), List.filter_filter]
    refine List.filter_congr ?_
    intro x _
    cases hx : inRange low high x <;> simp [hs, hx]

/-- Claim C3 counterexample: on the spec's own three-row scenario dataset
the slider's ends are the constants 0 and 10000, not the dataset minimum
500 and maximum 4000, so the control is not bounded by
`[datasetMin, datasetMax]`. -/
theorem payload_slider_bounds_cex :
    ¬ ((payloadSlider specDs).lowBound = min_payload specDs ∧
        (payloadSlider specDs).highBound = max_payload specDs) := by decide

/-- Claim C3 (amended): the payload range control has the fixed bounds 0
and 10000, and its default selected range is the dataset bounds
`(min_payload, max_payload)`. -/
theorem payload_slider_bounds (ds : List LaunchRecord) :
    (payloadSlider ds).lowBound = 0 ∧ (payloadSlider ds).highBound = 10000 ∧
      (payloadSlider ds).value = (min_payload ds, max_payload ds) :=
  ⟨rfl, rfl, rfl⟩

/-- Claim C4: for `low ≤ high`, every scatter point has a present payload
mass `p` with `low ≤ p ≤ high` (rows with a missing mass are excluded),
and the point sequence is a subsequence of the dataset. -/
theorem scatter_range_bounds (ds : List LaunchRecord) (schema : Schema)
    (site : String) (low high : ℚ) (h : low ≤ high) :
    (∀ r ∈ (update_scatter_chart ds schema site (some (low, high))).points,
        ∃ p, r.payloadMass = some p ∧ low ≤ p ∧ p ≤ high) ∧
      ((update_scatter_chart ds schema site (some (low, high))).points).Sublist
        ds := by
  refine ⟨?_, scatter_points_sublist_helper ds schema site low high⟩
  intro r hr
  rw [scatter_points_eq] at hr
  have hrf : r ∈ ds.filter (inRange low high) := by
    by_cases hs : (site == "ALL") = true
    · rwa [if_pos hs] at hr
    · rw [if_neg hs] at hr
      exact (List.mem_filter.mp hr).1
  exact (inRange_iff low high r).mp (List.mem_filter.mp hrf).2

/-- Claim C4 witness: the theorem instantiated on the spec's scenario
dataset with the range `(0, 3000)`. -/
theorem scatter_range_bounds_witness :
    (0 : ℚ) ≤ 3000 ∧
      ((∀ r ∈ (update_scatter_chart specDs ⟨true, true⟩ "ALL"
            (some (0, 3000))).points,
          ∃ p, r.payloadMass = some p ∧ 0 ≤ p ∧ p ≤ 3000) ∧
        ((update_scatter_chart specDs ⟨true, true⟩ "ALL"
            (some (0, 3000))).points).Sublist specDs) :=
  ⟨by decide, scatter_range_bounds specDs ⟨true, true⟩ "ALL" 0 3000 (by decide)⟩

/-- Claim C5: when the selected site is not the sentinel `ALL`, every
scatter point's launch site equals the selected site (the site filter is
applied on top of the payload filter). -/
theorem scatter_site_only (ds : List LaunchRecord) (schema : Schema)
    (site : String) (payload_range : Option (ℚ × ℚ)) (h : site ≠ "ALL") :
    ∀ r ∈ (update_scatter_chart ds schema site payload_range).points,
      r.launchSite = site := by
  intro r hr
  have hd : (update_scatter_chart ds schema site payload_range).points
      = (update_scatter_chart ds schema site
          (some (payload_range.getD (min_payload ds, max_payload ds)))).points := by
    cases payload_range <;> rfl
  rw [hd, scatter_points_eq, if_neg (by simp [h])] at hr
  have := (List.mem_filter.mp hr).2
  simpa using this

/-- Claim C5 witness: the theorem instantiated at site `CCAFS` on the
spec's scenario dataset. -/
theorem scatter_site_only_witness :
    "CCAFS" ≠ "ALL" ∧
      ∀ r ∈ (update_scatter_chart specDs ⟨true, true⟩ "CCAFS"
          (some (0, 10000))).points,
        r.launchSite = "CCAFS" :=
  ⟨by decide,
    scatter_site_only specDs ⟨true, true⟩ "CCAFS" (some (0, 10000)) (by decide)⟩

/-- Claim C7: an inverted range (`low > high`) makes the payload mask
false everywhere, so the scatter point set is empty and no error is
raised. -/
theorem scatter_inverted_range_empty (ds : List LaunchRecord) (schema : Schema)
    (site : String) (low high : ℚ) (h : high < low) :
    (update_scatter_chart ds schema site (some (low, high))).points = [] := by
  have hf : ds.filter (inRange low high) = [] := by
    rw [List.filter_eq_nil_iff]
    intro r _ hr
    rcases (inRange_iff low high r).mp hr with ⟨p, _, hlp, hph⟩
    exact absurd (hlp.trans hph) (not_le.mpr h)
  rw [scatter_points_eq, hf]
  simp

/-- Claim C7 witness: the theorem instantiated on the spec's scenario
dataset with the inverted range `(3000, 0)`. -/
theorem scatter_inverted_range_empty_witness :
    (0 : ℚ) < 3000 ∧
      (update_scatter_chart specDs ⟨true, true⟩ "ALL"
          (some (3000, 0))).points = [] :=
  ⟨by decide,
    scatter_inverted_range_empty specDs ⟨true, true⟩ "ALL" 3000 0 (by decide)⟩

/-- Claim C1 counterexample: for the unknown site `Nowhere` on the spec's
scenario dataset the pie aggregation is not empty — the code always
reindexes to the two rows `Success`/`Failure` (here both 0), so the
claim's "zero label/count pairs" is false. -/
theorem pie_unknown_site_cex :
    (update_pie_chart specDs "Nowhere").pairs ≠ [] := by decide

/-- Claim C1 (amended): for a site that is neither `ALL` nor any record's
launch site, the pie aggregation is exactly the two pairs
`[(Success, 0), (Failure, 0)]` (an all-zero aggregation, not zero pairs),
the scatter point set is empty, and neither operation errors. -/
theorem unknown_site_results (ds : List LaunchRecord) (schema : Schema)
    (site : String) (low high : ℚ) (hALL : site ≠ "ALL")
    (habsent : ∀ r ∈ ds, r.launchSite ≠ site) :
    (update_pie_chart ds site).pairs = [("Success", 0), ("Failure", 0)] ∧
      (update_scatter_chart ds schema site (some (low, high))).points = [] := by
  have hσ : ds.filter (fun r => r.launchSite == site) = [] := by
    rw [List.filter_eq_nil_iff]
    intro r hr hc
    exact habsent r hr (by simpa using hc)
  constructor
  · have hpairs : (update_pie_chart ds site).pairs = pieSite ds site := by
      simp [update_pie_chart, hALL]
    rw [hpairs]
    simp [pieSite, hσ]
  · rw [scatter_points_eq, if_neg (by simp [hALL]), List.filter_eq_nil_iff]
    intro r hr hc
    exact habsent r (List.mem_filter.mp hr).1 (by simpa using hc)

/-- Claim C1 witness: the amended theorem instantiated at the unknown
site `Nowhere` on the spec's scenario dataset. -/
theorem unknown_site_results_witness :
    "Nowhere" ≠ "ALL" ∧ (∀ r ∈ specDs, r.launchSite ≠ "Nowhere") ∧
      ((update_pie_chart specDs "Nowhere").pairs
            = [("Success", 0), ("Failure", 0)] ∧
        (update_scatter_chart specDs ⟨true, true⟩ "Nowhere"
            (some (0, 10000))).points = []) :=
  ⟨by decide, by decide,
    unknown_site_results specDs ⟨true, true⟩ "Nowhere" 0 10000
      (by decide) (by decide)⟩

/-- Claim C2 counterexample: in a dataset containing a site literally
named `ALL`, that site is "present in the dataset", but selecting it hits
the sentinel branch: the aggregation is the per-site groupby, not the two
Success/Failure pairs the claim requires. -/
theorem pie_site_named_ALL_cex :
    (update_pie_chart [⟨"ALL", some 100, 1⟩] "ALL").pairs
      ≠ [("Success", 1), ("Failure", 0)] := by decide

/-- Claim C2 (amended): for every site `s` present in the dataset and
distinct from the sentinel `ALL`, with every `class` value 0 or 1, the pie
aggregation is exactly `[(Success, count class=1), (Failure, count
class=0)]` in that order (a pair has count 0 when its category is
absent), and the two counts sum to the number of records at site `s`. -/
theorem pie_site_pairs (ds : List LaunchRecord) (s : String)
    (hpresent : ∃ r ∈ ds, r.launchSite = s) (hALL : s ≠ "ALL")
    (hwf : ∀ r ∈ ds, r.outcomeClass = 0 ∨ r.outcomeClass = 1) :
    (update_pie_chart ds s).pairs
      = [("Success",
            (ds.filter (fun r => r.launchSite == s
              && r.outcomeClass == 1)).length),
         ("Failure",
            (ds.filter (fun r => r.launchSite == s
              && r.outcomeClass == 0)).length)] ∧
      ((update_pie_chart ds s).pairs.map Prod.snd).sum
        = (ds.filter (fun r => r.launchSite == s)).length := by
  have hpairs : (update_pie_chart ds s).pairs = pieSite ds s := by
    simp [update_pie_chart, hALL]
  have h1 : (ds.filter (fun r => r.launchSite == s)).filter
        (fun r => r.outcomeClass == 1)
      = ds.filter (fun r => r.launchSite == s && r.outcomeClass == 1) := by
    rw [List.filter_filter]
    exact List.filter_congr (fun x _ => Bool.and_comm _ _)
  have h0 : (ds.filter (fun r => r.launchSite == s)).filter
        (fun r => r.outcomeClass == 0)
      = ds.filter (fun r => r.launchSite == s && r.outcomeClass == 0) := by
    rw [List.filter_filter]
    exact List.filter_congr (fun x _ => Bool.and_comm _ _)
  constructor
  · rw [hpairs]
    simp only [pieSite]
    rw [h1, h0]
  · rw [hpairs]
    simp only [pieSite, List.map_cons, List.map_nil, List.sum_cons,
      List.sum_nil]
    have hpart := length_filter_class_partition
      (ds.filter (fun r => r.launchSite == s))
      (fun r hr => hwf r (List.mem_filter.mp hr).1)
    omega

/-- Claim C2 witness: the amended theorem instantiated at site `CCAFS` on
the spec's scenario dataset, where the counts are 1 success and 1
failure, summing to the 2 records at that site. -/
theorem pie_site_pairs_witness :
    (∃ r ∈ specDs, r.launchSite = "CCAFS") ∧ "CCAFS" ≠ "ALL" ∧
      (∀ r ∈ specDs, r.outcomeClass = 0 ∨ r.outcomeClass = 1) ∧
      ((update_pie_chart specDs "CCAFS").pairs
          = [("Success",
                (specDs.filter (fun r => r.launchSite == "CCAFS"
                  && r.outcomeClass == 1)).length),
             ("Failure",
                (specDs.filter (fun r => r.launchSite == "CCAFS"
                  && r.outcomeClass == 0)).length)] ∧
        ((update_pie_chart specDs "CCAFS").pairs.map Prod.snd).sum
          = (specDs.filter (fun r => r.launchSite == "CCAFS")).length) :=
  ⟨by decide, by decide, by decide,
    pie_site_pairs specDs "CCAFS" (by decide) (by decide) (by decide)⟩

/-- Claim C6: with site `ALL` the pie aggregation has one pair per
distinct launch site (distinct labels covering exactly the dataset's
sites), each count is the sum of `class` over that site's records, and
the counts sum to the dataset's total `class` sum (its successful-launch
count). -/
theorem pie_all_groups_total (ds : List LaunchRecord) :
    (((update_pie_chart ds "ALL").pairs.map Prod.fst).Nodup ∧
        ∀ s : String, s ∈ (update_pie_chart ds "ALL").pairs.map Prod.fst
          ↔ ∃ r ∈ ds, r.launchSite = s) ∧
      (∀ p ∈ (update_pie_chart ds "ALL").pairs,
          p.2 = classSum (ds.filter (fun r => r.launchSite == p.1))) ∧
      ((update_pie_chart ds "ALL").pairs.map Prod.snd).sum = classSum ds := by
  have hpairs : (update_pie_chart ds "ALL").pairs = pieAll ds := rfl
  have hfst : (pieAll ds).map Prod.fst = siteKeys ds := by
    simp [pieAll, List.map_map, Function.comp_def]
  refine ⟨⟨?_, ?_⟩, ?_, ?_⟩
  · rw [hpairs, hfst]
    exact siteKeys_nodup ds
  · intro s
    rw [hpairs, hfst]
    exact mem_siteKeys ds s
  · intro p hp
    rw [hpairs] at hp
    rcases List.mem_map.mp hp with ⟨s, _, rfl⟩
    rfl
  · rw [hpairs]
    have hsnd : (pieAll ds).map Prod.snd
        = (siteKeys ds).map
            (fun s => classSum (ds.filter (fun r => r.launchSite == s))) := by
      simp [pieAll, List.map_map, Function.comp_def]
    rw [hsnd]
    exact classSum_partition (siteKeys ds) ds (siteKeys_nodup ds)
      (fun r hr => (mem_siteKeys ds r.launchSite).mpr ⟨r, hr, rfl⟩)
